import Mathlib

/-!
Shallow embedding of the connection-establishment and password-resource core
of a Terraform MySQL provider: `src/mysql/provider.go` (connection manager,
credential and dialer resolution, version gate helpers) and the
`mysql_user_password` resource file (SetUserPassword), together with theorems
checking the specification's claims about them.
-/

set_option maxHeartbeats 1000000

/-! ## SQL text helpers -/

def quoteChar : Char := '\''

def backtickChar : Char := '`'

def backslashChar : Char := '\\'

/-- Number of single-quote characters in a string. -/
def quoteCount (s : String) : Nat := s.data.countP (fun c => c == quoteChar)

/-- Scan SQL text tracking whether the position is inside a single-quoted
string literal. The statement's quoting is well formed only when the scan ends
outside a literal (every quote pairs up, either as a delimiter pair or as a
doubled escape). -/
def sqlScan : List Char → Bool → Bool
  | [], inLit => !inLit
  | c :: cs, inLit => if c == quoteChar then sqlScan cs (!inLit) else sqlScan cs inLit

/-! ## Version gate (serverVersion + the go-version comparison) -/

/-- Modelled from the spec: numeric segment comparison of the external
go-version library's `LessThan` (compare dot-separated numeric segments left to
right, a missing segment reading as zero). -/
def segLt : List Nat → List Nat → Bool
  | [], bs => bs.any (fun b => decide (0 < b))
  | _ :: _, [] => false
  | a :: as, b :: bs => if a < b then true else if b < a then false else segLt as bs

/-- Split a character list at every occurrence of the separator character. -/
def splitOnChar (sep : Char) : List Char → List (List Char)
  | [] => [[]]
  | c :: cs =>
    if c == sep then [] :: splitOnChar sep cs
    else
      match splitOnChar sep cs with
      | [] => [[c]]
      | p :: ps => (c :: p) :: ps

/-- Parse a nonempty all-digit character list as a decimal number. -/
def parseNatChars (cs : List Char) : Option Nat :=
  if cs.isEmpty then none
  else if cs.all (fun c => c.isDigit) then
    some (cs.foldl (fun acc c => acc * 10 + (c.toNat - 48)) 0)
  else none

/-- Modelled from the spec: the external go-version library's parse of a
version string such as "5.7.5" into its numeric dot-separated segments
(`serverVersion` feeds the server's reported version string to it). -/
def parseVersion (s : String) : Option (List Nat) :=
  (splitOnChar '.' s.data).mapM parseNatChars

inductive Dialect
  | Legacy
  | Modern
deriving DecidableEq

/-- The version threshold `version.NewVersion("5.7.6")` hard-coded in
SetUserPassword. -/
def alterUserThreshold : List Nat := [5, 7, 6]

/-- The dialect branch taken by SetUserPassword: the legacy SET PASSWORD form
exactly when `serverVersion.LessThan(ver)` with ver = 5.7.6. -/
def passwordDialect (v : List Nat) : Dialect :=
  if segLt v alterUserThreshold then .Legacy else .Modern

/-- The password-change statement SetUserPassword builds with fmt.Sprintf:
user, host and password are interpolated verbatim between single quotes, with
no escaping of any of the three. -/
def setUserPasswordStmt (v : List Nat) (user host password : String) : String :=
  if segLt v alterUserThreshold then
    "SET PASSWORD FOR '" ++ user ++ "'@'" ++ host ++ "' = PASSWORD('" ++ password ++ "')"
  else
    "ALTER USER '" ++ user ++ "'@'" ++ host ++ "' IDENTIFIED BY '" ++ password ++ "'"

/-! ## quoteIdentifier (provider.go) -/

/-- The replacement performed by `strings.NewReplacer("`", "``")`: every
backtick becomes a doubled backtick. -/
def replaceBackticks : List Char → List Char
  | [] => []
  | c :: cs =>
    if c == backtickChar then backtickChar :: backtickChar :: replaceBackticks cs
    else c :: replaceBackticks cs

/-- `quoteIdentifier` from provider.go: wrap the identifier in backticks after
doubling every embedded backtick. -/
def quoteIdentifier (s : String) : String :=
  "`" ++ String.mk (replaceBackticks s.data) ++ "`"

/-- Every backtick in the list is immediately followed by its pair (backticks
occur only doubled). -/
def backticksDoubled : List Char → Bool
  | [] => true
  | [c] => !(c == backtickChar)
  | c :: c2 :: cs =>
    if c == backtickChar then c2 == backtickChar && backticksDoubled cs
    else backticksDoubled (c2 :: cs)

/-! ## uuid.NewV4 / uuid.String (the generated password) -/

def hexDigits : List Char := "0123456789abcdef".data

/-- Lower-case hex digit of a nibble. -/
def hexDigit (n : Nat) : Char := hexDigits.get ⟨n % 16, Nat.mod_lt n (by decide)⟩

/-- The two hex characters encoding one byte. -/
def byteHex (b : Nat) : List Char := [hexDigit (b / 16), hexDigit (b % 16)]

/-- Modelled from the spec: the external uuid library's canonical text form
(uuid.String) — 16 bytes hex-encoded in groups of 4-2-2-2-6 bytes separated by
hyphens. -/
def uuidString (bytes : List Nat) : String :=
  let b := (bytes ++ List.replicate 16 0).take 16
  String.mk (((b.take 4).map byteHex).flatten ++ '-' :: (((b.drop 4).take 2).map byteHex).flatten
    ++ '-' :: (((b.drop 6).take 2).map byteHex).flatten
    ++ '-' :: (((b.drop 8).take 2).map byteHex).flatten
    ++ '-' :: (((b.drop 10).take 6).map byteHex).flatten)

/-- Modelled from the spec: the external uuid library's NewV4 — 16 random
bytes with the version nibble of byte 6 forced to 4 and the variant bits of
byte 8 forced to the 10 pattern. -/
def newV4 (random : List Nat) : List Nat :=
  let b := (random ++ List.replicate 16 0).take 16
  (b.set 6 (b.getD 6 0 % 16 + 64)).set 8 (b.getD 8 0 % 64 + 128)

/-! ## Connection manager (provider.go: MySQLConfiguration, connectToMySQL, GetDbConn) -/

/-- The fields of the driver's mysql.Config that providerConfigure sets. -/
structure MysqlConfig where
  user : String
  passwd : String
  net : String
  addr : String
  tlsConfig : String
  allowNativePasswords : Bool
  allowCleartextPasswords : Bool
deriving DecidableEq

/-- A live database handle together with its pool tuning (the values the code
passes to SetConnMaxLifetime and SetMaxOpenConns after establishment). -/
structure DB where
  handle : Nat
  connMaxLifetime : Int
  maxOpenConns : Int
deriving DecidableEq

/-- MySQLConfiguration from provider.go (the provider instance): connection
configuration plus the lazily filled db field. -/
structure MySQLConfiguration where
  config : MysqlConfig
  maxConnLifetime : Int
  maxOpenConns : Int
  connectRetryTimeout : Nat
  db : Option DB
deriving DecidableEq

/-- Outcome of one open-and-probe attempt inside the retry closure: sql.Open
fails, db.Ping fails, or both succeed yielding a handle. -/
inductive AttemptResult
  | openErr (e : String)
  | pingErr (e : String)
  | ok (handle : Nat)
deriving DecidableEq

def attemptError : AttemptResult → Option String
  | .openErr e => some e
  | .pingErr e => some e
  | .ok _ => none

/-- Modelled from the spec: the host runtime's resource.RetryContext loop,
which is not part of this repository — re-invoke the closure while it reports
a retryable error until the timeout budget (abstracted as the number of
attempts that fit in it) is exhausted, then surface the last error; the
closure wraps both of its failure kinds in resource.RetryableError. -/
def retryLoop (attempts : Nat → AttemptResult) (i : Nat) : Nat → Except String Nat
  | 0 => .error "retry budget exhausted before any attempt"
  | fuel + 1 =>
    match attempts i with
    | .ok h => .ok h
    | .openErr e => if fuel = 0 then .error e else retryLoop attempts (i + 1) fuel
    | .pingErr e => if fuel = 0 then .error e else retryLoop attempts (i + 1) fuel

/-- connectToMySQL from provider.go over the attempt oracle: run the retry
loop; on exhaustion wrap the last failure in "could not connect to server: ";
on success apply SetConnMaxLifetime and SetMaxOpenConns from the
configuration before returning the handle. -/
def connectToMySQL (conf : MySQLConfiguration) (attempts : Nat → AttemptResult)
    (budget : Nat) : Except String DB :=
  match retryLoop attempts 0 budget with
  | .error e => .error ("could not connect to server: " ++ e)
  | .ok h =>
    .ok { handle := h, connMaxLifetime := conf.maxConnLifetime,
          maxOpenConns := conf.maxOpenConns }

/-- GetDbConn from provider.go: a bare nil-check cache — connect only when
c.db is nil, store the handle on success, return the error (leaving c.db nil)
on failure. -/
def getDbConn (c : MySQLConfiguration) (attempts : Nat → AttemptResult)
    (budget : Nat) : MySQLConfiguration × Except String DB :=
  match c.db with
  | some db => (c, .ok db)
  | none =>
    match connectToMySQL c attempts budget with
    | .error e => (c, .error e)
    | .ok db => ({ c with db := some db }, .ok db)

/-! ## The concurrent first-call race on GetDbConn -/

/-- Program counter of one caller running GetDbConn's body, split at its
shared-state accesses: the nil test on c.db, the establishment plus the store
into c.db, and the final read of c.db that the caller returns. -/
inductive CallerPC
  | ready
  | willConnect
  | willReturn
  | done (ret : Option Nat)
deriving DecidableEq

/-- Shared state of one provider instance with two concurrent GetDbConn
callers: the cached db field, how many underlying establishments have run, and
each caller's program counter. -/
structure ConnRace where
  db : Option Nat
  establishments : Nat
  pcA : CallerPC
  pcB : CallerPC
deriving DecidableEq

/-- One caller's next step of GetDbConn: reads and writes of the shared db
field, with the establishment (always succeeding here, as the server is
reachable) producing that caller's own fresh handle. Returns the new program
counter, the new shared db field, and how many establishments the step ran. -/
def stepCaller (pc : CallerPC) (db : Option Nat) (handle : Nat) :
    CallerPC × Option Nat × Nat :=
  match pc with
  | .ready =>
    match db with
    | none => (.willConnect, db, 0)
    | some _ => (.willReturn, db, 0)
  | .willConnect => (.willReturn, some handle, 1)
  | .willReturn => (.done db, db, 0)
  | .done r => (.done r, db, 0)

/-- Interleaved execution of two GetDbConn callers A and B on one shared
instance; caller A's establishment yields handle 101, caller B's handle 102
(two separate sql.Open calls yield distinct pool objects). -/
def raceStep (s : ConnRace) (who : Bool) : ConnRace :=
  if who then
    let r := stepCaller s.pcB s.db 102
    { s with pcB := r.1, db := r.2.1, establishments := s.establishments + r.2.2 }
  else
    let r := stepCaller s.pcA s.db 101
    { s with pcA := r.1, db := r.2.1, establishments := s.establishments + r.2.2 }

/-- Run a schedule (false = caller A moves, true = caller B moves) from the
fresh instance (db nil, nothing established). -/
def runRace (sched : List Bool) : ConnRace :=
  sched.foldl raceStep { db := none, establishments := 0, pcA := .ready, pcB := .ready }

/-! ## providerConfigure, getAADToken, makeDialer (provider.go) -/

def cleartextPasswords : String := "cleartext"

def nativePasswords : String := "native"

def aadAuthentication : String := "aad_auth"

structure AADCreds where
  clientId : String
  clientSecret : String
  tenantId : String
deriving DecidableEq

/-- The typed provider arguments providerConfigure reads from the schema. -/
structure ProviderInputs where
  endpoint : String
  username : String
  password : String
  proxy : String
  tls : String
  authPlugin : String
  aadBlock : Option AADCreds
  maxConnLifetimeSec : Int
  maxOpenConns : Int
  connectRetryTimeoutSec : Nat
deriving DecidableEq

/-- getAADToken from provider.go: a fatal error naming the missing block when
aad_authentication is absent; otherwise exchange the block's client
credentials for a bearer token. The exchange itself
(NewClientCredentialsConfig / ServicePrincipalToken / AccessToken) is the
external identity-provider call, passed in as an oracle. -/
def getAADToken (aadBlock : Option AADCreds)
    (exchange : AADCreds → Except String String) : Except String String :=
  match aadBlock with
  | none => .error "aad_authentication block is not set and is required when authentication_plugin is aad_auth"
  | some creds => exchange creds

inductive Dialer
  | direct
  | fromEnv
  | socks5 (hostport : String)
deriving DecidableEq

/-- Split a URL's characters at the first "://" into scheme and remainder. -/
def splitScheme : List Char → Option (List Char × List Char)
  | [] => none
  | ':' :: '/' :: '/' :: rest => some ([], rest)
  | c :: cs =>
    match splitScheme cs with
    | none => none
    | some p => some (c :: p.1, p.2)

/-- host:port syntax: a nonempty host, one colon, and a nonempty numeric
port. -/
def hostPortOk (rest : List Char) : Bool :=
  match splitOnChar ':' rest with
  | [h, p] => !h.isEmpty && !p.isEmpty && p.all (fun c => c.isDigit)
  | _ => false

/-- Modelled from the spec: url.Parse followed by golang.org/x/net/proxy's
FromURL, both external to this repository — the override must parse as
scheme://host:port and the scheme must be one of the SOCKS5 handlers the proxy
package knows (socks5 and socks5h); anything else is a configuration error and
yields no dialer. -/
def proxyFromURL (s : String) : Except String Dialer :=
  match splitScheme s.data with
  | some p =>
    if p.1 == "socks5".data || p.1 == "socks5h".data then
      if hostPortOk p.2 then .ok (.socks5 (String.mk p.2))
      else .error ("proxy: invalid address " ++ String.mk p.2)
    else .error ("proxy: unknown scheme: " ++ String.mk p.1)
  | none => .error ("parse " ++ s ++ ": invalid proxy URL")

/-- makeDialer from provider.go: a nonempty proxy argument must parse through
proxy.FromURL; an empty one falls back to proxy.FromEnvironment (passed in as
a parameter, since it reads the process environment). -/
def makeDialer (proxyArg : String) (envDialer : Dialer) : Except String Dialer :=
  if proxyArg.length > 0 then proxyFromURL proxyArg else .ok envDialer

/-- The claim's predicate on proxy override strings: scheme socks5 with an
optional trailing h, then host:port. -/
def proxyOverrideMatches (s : String) : Bool :=
  match splitScheme s.data with
  | some p => (p.1 == "socks5".data || p.1 == "socks5h".data) && hostPortOk p.2
  | none => false

/-- providerConfigure from provider.go: derive the transport from the
endpoint's leading slash; when the aad_auth plugin is selected, downgrade the
plugin to cleartext and replace the password by the exchanged token (aborting
on exchange failure); build the mysql.Config with the password-exchange flags;
resolve the dialer (aborting on failure) and register it; and assemble the
MySQLConfiguration with a nil db. The registered dialer is returned alongside
to record the RegisterDialContext side effect. -/
def providerConfigure (d : ProviderInputs)
    (exchange : AADCreds → Except String String) (envDialer : Dialer) :
    Except String (MySQLConfiguration × Dialer) :=
  let proto := if d.endpoint.length > 0 && d.endpoint.data.head? == some '/' then "unix" else "tcp"
  match (if d.authPlugin == aadAuthentication then
          (getAADToken d.aadBlock exchange).map (fun t => (cleartextPasswords, t))
         else .ok (d.authPlugin, d.password)) with
  | .error e => .error e
  | .ok pt =>
    let conf : MysqlConfig :=
      { user := d.username, passwd := pt.2, net := proto, addr := d.endpoint,
        tlsConfig := d.tls,
        allowNativePasswords := pt.1 == nativePasswords,
        allowCleartextPasswords := pt.1 == cleartextPasswords }
    match makeDialer d.proxy envDialer with
    | .error e => .error e
    | .ok dialer =>
      .ok ({ config := conf, maxConnLifetime := d.maxConnLifetimeSec,
             maxOpenConns := d.maxOpenConns,
             connectRetryTimeout := d.connectRetryTimeoutSec, db := none }, dialer)

/-! ## SetUserPassword (the mysql_user_password resource) -/

structure UserPasswordData where
  user : String
  host : String
  password : Option String
  id : Option String
deriving DecidableEq

/-- The external effects SetUserPassword consumes, as oracles: GetDbConn's
outcome, uuid.NewV4's random bytes (or its error), the result of the
@@GLOBAL.innodb_version scalar query, and db.Exec's outcome per statement
text. -/
structure SetUserPasswordEnv where
  conn : Except String DB
  uuidRandom : Except String (List Nat)
  versionQuery : Except String String
  execResult : String → Except String Unit

/-- serverVersion from provider.go over the version-query oracle: scan the
scalar query result and parse it with go-version. -/
def serverVersionQ (q : Except String String) : Except String (List Nat) :=
  match q with
  | .error e => .error e
  | .ok s =>
    match parseVersion s with
    | none => .error ("Malformed version: " ++ s)
    | some v => .ok v

/-- SetUserPassword from the user-password resource file: get the shared
connection, generate a fresh uuid-v4 password, write it into the declarative
state (d.Set) before anything else, read the server version, build the
dialect-gated statement, execute it, and only on success set the resource id
to user@host. Returns the updated resource data and the error, if any. -/
def SetUserPassword (d : UserPasswordData) (env : SetUserPasswordEnv) :
    UserPasswordData × Option String :=
  match env.conn with
  | .error e => (d, some e)
  | .ok _ =>
    match env.uuidRandom with
    | .error e => (d, some e)
    | .ok random =>
      let password := uuidString (newV4 random)
      let d1 := { d with password := some password }
      match serverVersionQ env.versionQuery with
      | .error e => (d1, some ("could not determine server version: " ++ e))
      | .ok v =>
        let stmtSQL := setUserPasswordStmt v d1.user d1.host password
        match env.execResult stmtSQL with
        | .error e => (d1, some e)
        | .ok _ => ({ d1 with id := some (d1.user ++ "@" ++ d1.host) }, none)

/-! ## Concrete instances used by witnesses -/

def sampleConfig : MysqlConfig :=
  { user := "root", passwd := "pw", net := "tcp", addr := "db.example.com:3306",
    tlsConfig := "false", allowNativePasswords := true, allowCleartextPasswords := false }

def sampleInstance : MySQLConfiguration :=
  { config := sampleConfig, maxConnLifetime := 60, maxOpenConns := 5,
    connectRetryTimeout := 300, db := none }

/-- A server that never becomes reachable: every open fails. -/
def alwaysDown : Nat → AttemptResult := fun _ => .openErr "connection refused"

/-- A server that is reachable at once. -/
def serverUp : Nat → AttemptResult := fun _ => .ok 7

/-- A server whose first open fails, whose second open succeeds but whose
probe fails, and which is healthy from the third attempt on. -/
def flakyAttempts : Nat → AttemptResult := fun i =>
  if i = 0 then .openErr "dns failure"
  else if i = 1 then .pingErr "server not ready"
  else .ok 7

def sampleCreds : AADCreds := { clientId := "cid", clientSecret := "cs", tenantId := "tid" }

def aadInputs (blk : Option AADCreds) : ProviderInputs :=
  { endpoint := "db.example.com:3306", username := "u", password := "pw", proxy := "",
    tls := "false", authPlugin := "aad_auth", aadBlock := blk,
    maxConnLifetimeSec := 60, maxOpenConns := 5, connectRetryTimeoutSec := 300 }

def nativeInputs : ProviderInputs :=
  { endpoint := "db.example.com:3306", username := "u", password := "pw", proxy := "",
    tls := "false", authPlugin := "native", aadBlock := none,
    maxConnLifetimeSec := 60, maxOpenConns := 5, connectRetryTimeoutSec := 300 }

def sampleDB : DB := { handle := 7, connMaxLifetime := 60, maxOpenConns := 5 }

def sampleUPD : UserPasswordData :=
  { user := "app", host := "%", password := none, id := none }

def sampleRandom : List Nat := List.range 16

/-- An environment whose statement execution fails. -/
def sampleFailEnv : SetUserPasswordEnv :=
  { conn := .ok sampleDB, uuidRandom := .ok sampleRandom,
    versionQuery := .ok "8.0.21", execResult := fun _ => .error "exec failed" }

/-! ## Helper lemmas -/

/-- Necessary syntactic-validity condition for a SQL statement that uses
single-quoted string literals: the quote scan ends outside a literal. -/
def sqlQuotesValid (s : String) : Bool := sqlScan s.data false

/-- Collapse doubled backticks back to single ones (left inverse of
`replaceBackticks`). -/
def undoubleBackticks : List Char → List Char
  | [] => []
  | [c] => [c]
  | c :: c2 :: cs =>
    if c == backtickChar then c :: undoubleBackticks cs
    else c :: undoubleBackticks (c2 :: cs)

def isHexOrHyphen (c : Char) : Bool := hexDigits.contains c || c == '-'

def aadResult : MySQLConfiguration × Dialer :=
  ({ config := { user := "u", passwd := "tok", net := "tcp", addr := "db.example.com:3306",
                 tlsConfig := "false", allowNativePasswords := false,
                 allowCleartextPasswords := true },
     maxConnLifetime := 60, maxOpenConns := 5, connectRetryTimeout := 300, db := none },
   .direct)

/-! ## Theorems -/

theorem sqlScan_iff (cs : List Char) :
    ∀ b, sqlScan cs b = true ↔
      cs.countP (fun c => c == quoteChar) % 2 = (if b then 1 else 0) := by
  induction cs with
  | nil => intro b; cases b <;> simp [sqlScan]
  | cons c cs ih =>
    intro b
    by_cases hc : c == quoteChar
    · cases b <;> simp [sqlScan, hc, List.countP_cons, ih] <;> omega
    · simp [sqlScan, hc, List.countP_cons, ih]

theorem sqlQuotesValid_iff (s : String) :
    sqlQuotesValid s = true ↔ quoteCount s % 2 = 0 := by
  simpa using sqlScan_iff s.data false

theorem backticksDoubled_replace (l : List Char) :
    backticksDoubled (replaceBackticks l) = true := by
  induction l with
  | nil => rfl
  | cons c cs ih =>
    by_cases hc : c == backtickChar
    · have h1 : replaceBackticks (c :: cs) =
          backtickChar :: backtickChar :: replaceBackticks cs := by
        simp [replaceBackticks, hc]
      rw [h1]
      simp [backticksDoubled, ih]
    · have h1 : replaceBackticks (c :: cs) = c :: replaceBackticks cs := by
        simp [replaceBackticks, hc]
      rw [h1]
      cases h : replaceBackticks cs with
      | nil => simp [backticksDoubled, hc]
      | cons d ds =>
        have h2 : backticksDoubled (c :: d :: ds) = backticksDoubled (d :: ds) := by
          simp [backticksDoubled, hc]
        rw [h2, ← h]
        exact ih

theorem undouble_replace (l : List Char) :
    undoubleBackticks (replaceBackticks l) = l := by
  induction l with
  | nil => rfl
  | cons c cs ih =>
    by_cases hc : c == backtickChar
    · have hc' : c = backtickChar := by simpa using hc
      have h1 : replaceBackticks (c :: cs) =
          backtickChar :: backtickChar :: replaceBackticks cs := by
        simp [replaceBackticks, hc]
      rw [h1]
      simp [undoubleBackticks, ih, hc']
    · have h1 : replaceBackticks (c :: cs) = c :: replaceBackticks cs := by
        simp [replaceBackticks, hc]
      rw [h1]
      cases h : replaceBackticks cs with
      | nil =>
        have hcs : cs = [] := by simpa [h, undoubleBackticks] using ih.symm
        simp [undoubleBackticks, hcs]
      | cons d ds =>
        have h2 : undoubleBackticks (c :: d :: ds) = c :: undoubleBackticks (d :: ds) := by
          simp [undoubleBackticks, hc]
        rw [h2, ← h, ih]

theorem hexDigit_mem (n : Nat) : hexDigit n ∈ hexDigits := List.get_mem _ _ _

theorem isHexOrHyphen_hexDigit (n : Nat) : isHexOrHyphen (hexDigit n) = true := by
  have h := hexDigit_mem n
  simp [isHexOrHyphen]
  exact Or.inl h

theorem byteHex_chars {c : Char} {b : Nat} (h : c ∈ byteHex b) :
    isHexOrHyphen c = true := by
  simp only [byteHex, List.mem_cons, List.not_mem_nil, or_false] at h
  rcases h with rfl | rfl <;> exact isHexOrHyphen_hexDigit _

theorem flatten_byteHex_chars {c : Char} {l : List Nat}
    (h : c ∈ (l.map byteHex).flatten) : isHexOrHyphen c = true := by
  simp only [List.mem_flatten, List.mem_map] at h
  obtain ⟨s, ⟨a, -, rfl⟩, hs⟩ := h
  exact byteHex_chars hs

theorem uuidString_chars (bytes : List Nat) :
    ∀ c ∈ (uuidString bytes).data, isHexOrHyphen c = true := by
  simp only [uuidString, List.forall_mem_append, List.forall_mem_cons]
  and_intros <;> first
    | decide
    | exact fun c h => flatten_byteHex_chars h

theorem quoteCount_append (a b : String) :
    quoteCount (a ++ b) = quoteCount a + quoteCount b := by
  simp [quoteCount, String.data_append, List.countP_append]

theorem stmt_quoteCount (v : List Nat) (user host pw : String) :
    quoteCount (setUserPasswordStmt v user host pw) =
      6 + (quoteCount user + quoteCount host + quoteCount pw) := by
  have e1 : quoteCount "SET PASSWORD FOR '" = 1 := by decide
  have e2 : quoteCount "'@'" = 2 := by decide
  have e3 : quoteCount "' = PASSWORD('" = 2 := by decide
  have e4 : quoteCount "')" = 1 := by decide
  have e5 : quoteCount "ALTER USER '" = 1 := by decide
  have e6 : quoteCount "' IDENTIFIED BY '" = 2 := by decide
  have e7 : quoteCount "'" = 1 := by decide
  by_cases hv : segLt v alterUserThreshold <;>
    simp [setUserPasswordStmt, hv, quoteCount_append, e1, e2, e3, e4, e5, e6, e7] <;>
    omega

theorem length_pos_of_ne_empty (s : String) (h : s ≠ "") : 0 < s.length := by
  cases s with
  | mk data =>
    cases data with
    | nil => exact absurd (by decide) h
    | cons c cs => simp [String.length]

theorem isHexOrHyphen_no_special {c : Char} (h : isHexOrHyphen c = true) :
    (c == quoteChar) = false ∧ (c == backslashChar) = false ∧
      (c == backtickChar) = false := by
  simp only [isHexOrHyphen, Bool.or_eq_true, beq_iff_eq] at h
  rcases h with h | h
  · have hmem : c ∈ hexDigits := by simpa using h
    refine ⟨?_, ?_, ?_⟩ <;> rw [beq_eq_false_iff_ne] <;> intro he <;> rw [he] at hmem <;>
      exact absurd hmem (by decide)
  · subst h
    decide

theorem makeDialer_nomatch (s : String) (envD : Dialer) (hne : s ≠ "")
    (hm : proxyOverrideMatches s = false) : ∃ e, makeDialer s envD = .error e := by
  have hlen : 0 < s.length := length_pos_of_ne_empty s hne
  simp only [makeDialer, if_pos hlen]
  simp only [proxyOverrideMatches] at hm
  unfold proxyFromURL
  cases hsp : splitScheme s.data with
  | none => exact ⟨_, rfl⟩
  | some p =>
    rw [hsp] at hm
    simp only [Bool.and_eq_false_iff] at hm
    rcases hm with hm | hm
    · simp [hm]
    · by_cases hsch : (p.1 == "socks5".data || p.1 == "socks5h".data) = true
      · simp [hsch, hm]
      · simp only [Bool.not_eq_true] at hsch
        simp [hsch]

theorem makeDialer_match (s : String) (envD : Dialer)
    (hm : proxyOverrideMatches s = true) :
    ∃ hp, makeDialer s envD = .ok (.socks5 hp) := by
  have hne : s ≠ "" := by
    intro h
    subst h
    exact absurd hm (by decide)
  have hlen : 0 < s.length := length_pos_of_ne_empty s hne
  simp only [makeDialer, if_pos hlen]
  simp only [proxyOverrideMatches] at hm
  unfold proxyFromURL
  cases hsp : splitScheme s.data with
  | none => rw [hsp] at hm; simp at hm
  | some p =>
    rw [hsp] at hm
    simp only [Bool.and_eq_true] at hm
    simp [hm.1, hm.2]

theorem retryLoop_all_fail (attempts : Nat → AttemptResult) :
    ∀ (n i : Nat) (e : String),
      (∀ j, j ≤ i + n → attemptError (attempts j) ≠ none) →
      attemptError (attempts (i + n)) = some e →
      retryLoop attempts i (n + 1) = .error e := by
  intro n
  induction n with
  | zero =>
    intro i e hall hlast
    have hi : attemptError (attempts i) = some e := by simpa using hlast
    cases hA : attempts i with
    | ok h => rw [hA] at hi; simp [attemptError] at hi
    | openErr e0 =>
      rw [hA] at hi
      simp only [attemptError, Option.some_inj] at hi
      subst hi
      simp [retryLoop, hA]
    | pingErr e0 =>
      rw [hA] at hi
      simp only [attemptError, Option.some_inj] at hi
      subst hi
      simp [retryLoop, hA]
  | succ n ih =>
    intro i e hall hlast
    have h0 : attemptError (attempts i) ≠ none := hall i (by omega)
    have hstep : ∀ e0, (attempts i = .openErr e0 ∨ attempts i = .pingErr e0) →
        retryLoop attempts i (n + 1 + 1) = retryLoop attempts (i + 1) (n + 1) := by
      intro e0 hA
      rcases hA with hA | hA <;> simp [retryLoop, hA]
    have htail : retryLoop attempts (i + 1) (n + 1) = .error e := by
      apply ih (i + 1) e
      · intro j hj
        exact hall j (by omega)
      · have harr : i + 1 + n = i + (n + 1) := by omega
        rw [harr]
        exact hlast
    cases hA : attempts i with
    | ok h => rw [hA] at h0; simp [attemptError] at h0
    | openErr e0 => rw [hstep e0 (Or.inl hA)]; exact htail
    | pingErr e0 => rw [hstep e0 (Or.inr hA)]; exact htail

/-- C1: GetDbConn's establishment is a bare nil-check with no locking, so two
concurrent first-time callers interleaved as A-check, B-check, A-connect,
A-return, B-connect, B-return each pass the nil test before either stores a
handle: the open-and-probe establishment runs twice and the callers return
different handles — while the fully sequential schedule establishes once and
hands both callers the same handle. This evaluates the code at the failing
interleaving; the claim's exactly-once, same-handle guarantee does not hold of
the code. -/
theorem getDbConn_race_double_establishment :
    (runRace [false, true, false, false, true, true]).establishments = 2 ∧
    (runRace [false, true, false, false, true, true]).pcA = .done (some 101) ∧
    (runRace [false, true, false, false, true, true]).pcB = .done (some 102) ∧
    (runRace [false, false, false, true, true, true]).establishments = 1 ∧
    (runRace [false, false, false, true, true, true]).pcA = .done (some 101) ∧
    (runRace [false, false, false, true, true, true]).pcB = .done (some 101) := by
  decide

/-- C2 counterexample: a provider instance whose first GetDbConn fails with
the budget exhausted is left with db still nil, and the very next GetDbConn
call starts a fresh establishment and succeeds — so a fatal establishment
failure is not terminal for the process and later calls do not all fail,
contradicting the claim at this concrete instance. -/
theorem getDbConn_failed_then_retry_cex :
    (getDbConn sampleInstance alwaysDown 3).2 =
      .error "could not connect to server: connection refused" ∧
    (getDbConn sampleInstance alwaysDown 3).1 = sampleInstance ∧
    (getDbConn (getDbConn sampleInstance alwaysDown 3).1 serverUp 3).2 = .ok sampleDB :=
  ⟨rfl, by decide, rfl⟩

/-- C2 amended: a fatal establishment failure is returned to that caller and
leaves the cached handle unset, so each subsequent GetDbConn starts a fresh
establishment attempt (succeeding if its own attempt succeeds); only success
is terminal — once the handle is cached, every later call returns it with no
new establishment. -/
theorem getDbConn_failure_not_terminal :
    ∀ (c : MySQLConfiguration) (att att2 : Nat → AttemptResult)
      (budget budget2 : Nat) (e : String) (db0 : DB),
      (c.db = none → connectToMySQL c att budget = .error e →
        getDbConn c att budget = (c, .error e) ∧
        (getDbConn c att budget).1.db = none) ∧
      (c.db = none → connectToMySQL c att budget = .error e →
        connectToMySQL c att2 budget2 = .ok db0 →
        (getDbConn (getDbConn c att budget).1 att2 budget2).2 = .ok db0) ∧
      (c.db = some db0 → getDbConn c att budget = (c, .ok db0)) := by
  intro c att att2 budget budget2 e db0
  refine ⟨?_, ?_, ?_⟩
  · intro h1 h2
    simp [getDbConn, h1, h2]
  · intro h1 h2 h3
    simp [getDbConn, h1, h2, h3]
  · intro h1
    simp [getDbConn, h1]

theorem getDbConn_failure_not_terminal_witness :
    getDbConn sampleInstance alwaysDown 3 =
      (sampleInstance, .error "could not connect to server: connection refused") ∧
    (getDbConn (getDbConn sampleInstance alwaysDown 3).1 serverUp 3).2 = .ok sampleDB := by
  have h := getDbConn_failure_not_terminal sampleInstance alwaysDown serverUp 3 3
    "could not connect to server: connection refused" sampleDB
  exact ⟨(h.1 rfl rfl).1, h.2.1 rfl rfl rfl⟩

/-- C3: inside connectToMySQL every per-attempt failure — open error or
liveness-probe error — is retryable: while budget remains, the loop continues
with the next attempt identically for both kinds; when the budget is
exhausted with every attempt failing, the function returns the fatal error
wrapping the last underlying failure; and on success it returns the handle
tuned with exactly the configuration's max connection lifetime and max open
connections. -/
theorem connectToMySQL_retry_and_tuning :
    (∀ (attempts : Nat → AttemptResult) (i fuel : Nat) (e : String),
      attempts i = .openErr e ∨ attempts i = .pingErr e →
      retryLoop attempts i (fuel + 2) = retryLoop attempts (i + 1) (fuel + 1)) ∧
    (∀ (conf : MySQLConfiguration) (attempts : Nat → AttemptResult) (n : Nat) (e : String),
      (∀ j, j ≤ n → attemptError (attempts j) ≠ none) →
      attemptError (attempts n) = some e →
      connectToMySQL conf attempts (n + 1) =
        .error ("could not connect to server: " ++ e)) ∧
    (∀ (conf : MySQLConfiguration) (attempts : Nat → AttemptResult) (budget h : Nat),
      retryLoop attempts 0 budget = .ok h →
      connectToMySQL conf attempts budget =
        .ok { handle := h, connMaxLifetime := conf.maxConnLifetime,
              maxOpenConns := conf.maxOpenConns }) := by
  refine ⟨?_, ?_, ?_⟩
  · intro attempts i fuel e hA
    rcases hA with hA | hA <;> simp [retryLoop, hA]
  · intro conf attempts n e hall hlast
    have hr : retryLoop attempts 0 (n + 1) = .error e := by
      apply retryLoop_all_fail attempts n 0 e
      · intro j hj
        exact hall j (by omega)
      · simpa using hlast
    simp [connectToMySQL, hr]
  · intro conf attempts budget h hr
    simp [connectToMySQL, hr]

theorem connectToMySQL_retry_and_tuning_witness :
    retryLoop flakyAttempts 0 3 = retryLoop flakyAttempts 1 2 ∧
    connectToMySQL sampleInstance alwaysDown 3 =
      .error "could not connect to server: connection refused" ∧
    connectToMySQL sampleInstance flakyAttempts 4 = .ok sampleDB := by
  refine ⟨connectToMySQL_retry_and_tuning.1 flakyAttempts 0 1 "dns failure" (Or.inl rfl),
    connectToMySQL_retry_and_tuning.2.1 sampleInstance alwaysDown 2 "connection refused"
      (fun j hj => by simp [alwaysDown, attemptError]) rfl,
    connectToMySQL_retry_and_tuning.2.2 sampleInstance flakyAttempts 4 7 (by rfl)⟩

/-- C4: the version gate selects the Legacy dialect — the SET PASSWORD FOR
... = PASSWORD(...) statement — exactly when the parsed server version is
strictly below 5.7.6, and the Modern dialect — the ALTER USER ... IDENTIFIED
BY ... statement — otherwise; version "5.7.5" yields Legacy and "5.7.6" and
"8.0.21" yield Modern. -/
theorem version_gate_dialect_threshold :
    (∀ v : List Nat, passwordDialect v = .Legacy ↔ segLt v alterUserThreshold = true) ∧
    (∀ (v : List Nat) (user host pw : String), segLt v alterUserThreshold = true →
      setUserPasswordStmt v user host pw =
        "SET PASSWORD FOR '" ++ user ++ "'@'" ++ host ++ "' = PASSWORD('" ++ pw ++ "')") ∧
    (∀ (v : List Nat) (user host pw : String), segLt v alterUserThreshold = false →
      setUserPasswordStmt v user host pw =
        "ALTER USER '" ++ user ++ "'@'" ++ host ++ "' IDENTIFIED BY '" ++ pw ++ "'") ∧
    (parseVersion "5.7.5").map passwordDialect = some .Legacy ∧
    (parseVersion "5.7.6").map passwordDialect = some .Modern ∧
    (parseVersion "8.0.21").map passwordDialect = some .Modern := by
  refine ⟨?_, ?_, ?_, by decide, by decide, by decide⟩
  · intro v
    by_cases h : segLt v alterUserThreshold <;> simp [passwordDialect, h]
  · intro v user host pw h
    simp [setUserPasswordStmt, h]
  · intro v user host pw h
    simp [setUserPasswordStmt, h]

theorem version_gate_dialect_threshold_witness :
    passwordDialect [5, 7, 5] = .Legacy ∧
    setUserPasswordStmt [5, 7, 5] "u" "h" "p" = "SET PASSWORD FOR 'u'@'h' = PASSWORD('p')" ∧
    setUserPasswordStmt [8, 0, 21] "u" "h" "p" = "ALTER USER 'u'@'h' IDENTIFIED BY 'p'" :=
  ⟨(version_gate_dialect_threshold.1 [5, 7, 5]).mpr (by decide),
   version_gate_dialect_threshold.2.1 [5, 7, 5] "u" "h" "p" (by decide),
   version_gate_dialect_threshold.2.2.1 [8, 0, 21] "u" "h" "p" (by decide)⟩

/-- C5 counterexample: with a secret containing a single quote, the generated
password-setting statement leaves the quote unescaped — the quote scan of the
statement ends inside a string literal, so the statement is not syntactically
valid SQL, refuting the claim's second conjunct at this concrete input (in
both dialects). -/
theorem secret_quote_not_escaped_cex :
    sqlQuotesValid (setUserPasswordStmt [8, 0, 21] "u" "h" "a'b") = false ∧
    sqlQuotesValid (setUserPasswordStmt [5, 7, 5] "u" "h" "a'b") = false := by
  decide

/-- C5 amended: quoteIdentifier produces the backtick-wrapped form in which
every embedded backtick is doubled (the doubled form round-trips back to the
input); but the generated password-setting statement interpolates the secret
verbatim with no escaping, so a secret whose single quotes cannot pair up (in
particular one embedded quote) yields a syntactically invalid statement —
the statement stays valid only for quote-free secrets such as the generated
UUID passwords. -/
theorem quoteIdentifier_doubles_secret_unescaped :
    (∀ s : String,
      (quoteIdentifier s).data = backtickChar :: replaceBackticks s.data ++ [backtickChar] ∧
      backticksDoubled (replaceBackticks s.data) = true ∧
      undoubleBackticks (replaceBackticks s.data) = s.data) ∧
    (∀ (v : List Nat) (user host pw : String),
      quoteCount user = 0 → quoteCount host = 0 → quoteCount pw % 2 = 1 →
      sqlQuotesValid (setUserPasswordStmt v user host pw) = false) ∧
    (∀ (v : List Nat) (user host pw : String),
      quoteCount user = 0 → quoteCount host = 0 → quoteCount pw = 0 →
      sqlQuotesValid (setUserPasswordStmt v user host pw) = true) := by
  refine ⟨?_, ?_, ?_⟩
  · intro s
    refine ⟨?_, backticksDoubled_replace s.data, undouble_replace s.data⟩
    simp [quoteIdentifier, String.data_append, backtickChar]
  · intro v user host pw hu hh hp
    cases hb : sqlQuotesValid (setUserPasswordStmt v user host pw)
    · rfl
    · exfalso
      have hcount := (sqlQuotesValid_iff (setUserPasswordStmt v user host pw)).mp hb
      rw [stmt_quoteCount, hu, hh] at hcount
      omega
  · intro v user host pw hu hh hp
    apply (sqlQuotesValid_iff (setUserPasswordStmt v user host pw)).mpr
    rw [stmt_quoteCount, hu, hh, hp]

theorem quoteIdentifier_doubles_secret_unescaped_witness :
    (quoteIdentifier "a`b").data =
      backtickChar :: replaceBackticks ("a`b").data ++ [backtickChar] ∧
    sqlQuotesValid (setUserPasswordStmt [8, 0, 21] "u" "h" "x'y") = false ∧
    sqlQuotesValid (setUserPasswordStmt [8, 0, 21] "u" "h" "p") = true :=
  ⟨(quoteIdentifier_doubles_secret_unescaped.1 "a`b").1,
   quoteIdentifier_doubles_secret_unescaped.2.1 [8, 0, 21] "u" "h" "x'y"
     (by decide) (by decide) (by decide),
   quoteIdentifier_doubles_secret_unescaped.2.2 [8, 0, 21] "u" "h" "p"
     (by decide) (by decide) (by decide)⟩

/-- C6: with the aad_auth plugin, a missing aad_authentication block is a
fatal configuration error naming the missing block, and no connection
configuration is produced; a successful token exchange yields a configuration
whose effective mode is cleartext (AllowCleartextPasswords set,
AllowNativePasswords unset) and whose secret is the returned bearer token;
and a failed exchange propagates as the fatal configuration error with no
retry. -/
theorem providerConfigure_aad_auth_modes :
    (∀ (d : ProviderInputs) (exchange : AADCreds → Except String String) (envD : Dialer),
      d.authPlugin = aadAuthentication → d.aadBlock = none →
      providerConfigure d exchange envD =
        .error "aad_authentication block is not set and is required when authentication_plugin is aad_auth") ∧
    (∀ (d : ProviderInputs) (exchange : AADCreds → Except String String) (envD : Dialer)
      (creds : AADCreds) (token : String) (r : MySQLConfiguration × Dialer),
      d.authPlugin = aadAuthentication → d.aadBlock = some creds →
      exchange creds = .ok token →
      providerConfigure d exchange envD = .ok r →
      r.1.config.allowCleartextPasswords = true ∧
      r.1.config.allowNativePasswords = false ∧
      r.1.config.passwd = token ∧
      r.1.config.user = d.username ∧
      r.1.db = none) ∧
    (∀ (d : ProviderInputs) (exchange : AADCreds → Except String String) (envD : Dialer)
      (creds : AADCreds) (e : String),
      d.authPlugin = aadAuthentication → d.aadBlock = some creds →
      exchange creds = .error e →
      providerConfigure d exchange envD = .error e) := by
  refine ⟨?_, ?_, ?_⟩
  · intro d exchange envD h1 h2
    simp [providerConfigure, h1, h2, getAADToken, Except.map]
  · intro d exchange envD creds token r h1 h2 h3 hok
    simp only [providerConfigure, h1, h2, h3, getAADToken, Except.map, beq_self_eq_true,
      if_true] at hok
    cases hmd : makeDialer d.proxy envD with
    | error e => rw [hmd] at hok; simp at hok
    | ok dialer =>
      rw [hmd] at hok
      simp only [Except.ok.injEq] at hok
      subst hok
      refine ⟨?_, ?_, rfl, rfl, rfl⟩
      · simp [cleartextPasswords]
      · simp [cleartextPasswords, nativePasswords]
  · intro d exchange envD creds e h1 h2 h3
    simp [providerConfigure, h1, h2, h3, getAADToken, Except.map]

theorem providerConfigure_aad_auth_modes_witness :
    providerConfigure (aadInputs none) (fun _ => .ok "tok") .direct =
      .error "aad_authentication block is not set and is required when authentication_plugin is aad_auth" ∧
    (aadResult.1.config.allowCleartextPasswords = true ∧
      aadResult.1.config.allowNativePasswords = false ∧
      aadResult.1.config.passwd = "tok" ∧
      aadResult.1.config.user = (aadInputs (some sampleCreds)).username ∧
      aadResult.1.db = none) ∧
    providerConfigure (aadInputs (some sampleCreds)) (fun _ => .error "boom") .direct =
      .error "boom" := by
  refine ⟨providerConfigure_aad_auth_modes.1 (aadInputs none) (fun _ => .ok "tok") .direct
      rfl rfl,
    providerConfigure_aad_auth_modes.2.1 (aadInputs (some sampleCreds)) (fun _ => .ok "tok")
      .direct sampleCreds "tok" aadResult rfl rfl rfl rfl,
    providerConfigure_aad_auth_modes.2.2 (aadInputs (some sampleCreds)) (fun _ => .error "boom")
      .direct sampleCreds "boom" rfl rfl rfl⟩

/-- C7: a nonempty proxy override that does not match socks5 (with optional
trailing h) and host:port syntax makes the dialer resolution fail with a
configuration error — and providerConfigure then fails, so no dialer is ever
installed; conversely every override matching socks5 or socks5h with
host:port is accepted and yields the SOCKS5 dialer. -/
theorem makeDialer_socks5_gate :
    (∀ (s : String) (envD : Dialer), s ≠ "" → proxyOverrideMatches s = false →
      ∃ e, makeDialer s envD = .error e) ∧
    (∀ (d : ProviderInputs) (exchange : AADCreds → Except String String) (envD : Dialer),
      d.proxy ≠ "" → proxyOverrideMatches d.proxy = false →
      ∃ e, providerConfigure d exchange envD = .error e) ∧
    (∀ (s : String) (envD : Dialer), proxyOverrideMatches s = true →
      ∃ hp, makeDialer s envD = .ok (.socks5 hp)) := by
  refine ⟨fun s envD hne hm => makeDialer_nomatch s envD hne hm, ?_,
    fun s envD hm => makeDialer_match s envD hm⟩
  intro d exchange envD hne hm
  obtain ⟨e, he⟩ := makeDialer_nomatch d.proxy envD hne hm
  by_cases hp : (d.authPlugin == aadAuthentication) = true
  · cases hg : getAADToken d.aadBlock exchange with
    | error e2 => exact ⟨e2, by simp [providerConfigure, hp, hg, Except.map, he]⟩
    | ok tok => exact ⟨e, by simp [providerConfigure, hp, hg, Except.map, he]⟩
  · exact ⟨e, by simp [providerConfigure, hp, he]⟩

theorem makeDialer_socks5_gate_witness :
    (∃ e, makeDialer "http://h:1" .fromEnv = .error e) ∧
    (∃ e, providerConfigure
      { nativeInputs with proxy := "http://h:1" } (fun _ => .ok "tok") .fromEnv = .error e) ∧
    (∃ hp, makeDialer "socks5://localhost:1080" .fromEnv = .ok (.socks5 hp)) ∧
    (∃ hp, makeDialer "socks5h://localhost:1080" .fromEnv = .ok (.socks5 hp)) :=
  ⟨makeDialer_socks5_gate.1 "http://h:1" .fromEnv (by decide) (by decide),
   makeDialer_socks5_gate.2.1 { nativeInputs with proxy := "http://h:1" }
     (fun _ => .ok "tok") .fromEnv (by decide) (by decide),
   makeDialer_socks5_gate.2.2 "socks5://localhost:1080" .fromEnv (by decide),
   makeDialer_socks5_gate.2.2 "socks5h://localhost:1080" .fromEnv (by decide)⟩

/-- C8: for the cleartext and native authentication modes the credential
handling is a pure passthrough: the configuration's secret is the configured
password, its user the configured username, AllowNativePasswords is set
exactly when the mode is native and AllowCleartextPasswords exactly when it
is cleartext. -/
theorem providerConfigure_passthrough :
    ∀ (d : ProviderInputs) (exchange : AADCreds → Except String String)
      (envD : Dialer) (r : MySQLConfiguration × Dialer),
      d.authPlugin ≠ aadAuthentication →
      providerConfigure d exchange envD = .ok r →
      r.1.config.passwd = d.password ∧
      r.1.config.user = d.username ∧
      r.1.config.allowNativePasswords = (d.authPlugin == nativePasswords) ∧
      r.1.config.allowCleartextPasswords = (d.authPlugin == cleartextPasswords) := by
  intro d exchange envD r hne hok
  have hbeq : (d.authPlugin == aadAuthentication) = false := by
    simpa using hne
  simp only [providerConfigure, hbeq, Bool.false_eq_true, if_false] at hok
  cases hmd : makeDialer d.proxy envD with
  | error e => rw [hmd] at hok; simp at hok
  | ok dialer =>
    rw [hmd] at hok
    simp only [Except.ok.injEq] at hok
    subst hok
    exact ⟨rfl, rfl, rfl, rfl⟩

theorem providerConfigure_passthrough_witness :
    ({ config := { user := "u", passwd := "pw", net := "tcp", addr := "db.example.com:3306",
                   tlsConfig := "false", allowNativePasswords := true,
                   allowCleartextPasswords := false },
       maxConnLifetime := 60, maxOpenConns := 5, connectRetryTimeout := 300,
       db := none } : MySQLConfiguration).config.passwd = nativeInputs.password ∧
    (nativeInputs.authPlugin == nativePasswords) = true := by
  have h := providerConfigure_passthrough nativeInputs (fun _ => .error "unused") .fromEnv
    ({ config := { user := "u", passwd := "pw", net := "tcp", addr := "db.example.com:3306",
                   tlsConfig := "false", allowNativePasswords := true,
                   allowCleartextPasswords := false },
       maxConnLifetime := 60, maxOpenConns := 5, connectRetryTimeout := 300,
       db := none }, .fromEnv) (by decide) rfl
  exact ⟨h.1, by decide⟩

/-- C9: when the statement execution fails, SetUserPassword returns that
error and leaves the resource id as it was (unset for a create), but the
freshly generated password has already been written into the resource's
declarative state before the statement ran — so the error path does not leave
the resource state unchanged. -/
theorem SetUserPassword_exec_failure_state :
    ∀ (d : UserPasswordData) (env : SetUserPasswordEnv) (db0 : DB)
      (random v : List Nat) (e : String),
      env.conn = .ok db0 →
      env.uuidRandom = .ok random →
      serverVersionQ env.versionQuery = .ok v →
      env.execResult (setUserPasswordStmt v d.user d.host (uuidString (newV4 random))) =
        .error e →
      SetUserPassword d env =
        ({ d with password := some (uuidString (newV4 random)) }, some e) ∧
      (SetUserPassword d env).1.id = d.id ∧
      (d.password ≠ some (uuidString (newV4 random)) → (SetUserPassword d env).1 ≠ d) := by
  intro d env db0 random v e h1 h2 h3 h4
  have hmain : SetUserPassword d env =
      ({ d with password := some (uuidString (newV4 random)) }, some e) := by
    simp [SetUserPassword, h1, h2, h3, h4]
  refine ⟨hmain, ?_, ?_⟩
  · rw [hmain]
  · intro hne heq
    rw [hmain] at heq
    have hp := congrArg UserPasswordData.password heq
    simp only at hp
    exact hne hp.symm

theorem SetUserPassword_exec_failure_state_witness :
    (SetUserPassword sampleUPD sampleFailEnv).1.id = none ∧
    (SetUserPassword sampleUPD sampleFailEnv).1.password =
      some (uuidString (newV4 sampleRandom)) ∧
    (SetUserPassword sampleUPD sampleFailEnv).2 = some "exec failed" ∧
    (SetUserPassword sampleUPD sampleFailEnv).1 ≠ sampleUPD := by
  have h := SetUserPassword_exec_failure_state sampleUPD sampleFailEnv sampleDB sampleRandom
    [8, 0, 21] "exec failed" rfl rfl rfl rfl
  refine ⟨?_, ?_, ?_, h.2.2 (by decide)⟩
  · simpa [sampleUPD] using h.2.1
  · simp [h.1]
  · simp [h.1]

/-- C10: the password SetUserPassword generates is the canonical uuid-v4
string: every character is a hex digit or a hyphen, so it contains no single
quote, backslash or backtick; consequently the statement that interpolates it
verbatim stays syntactically valid whenever user and host are quote-free. -/
theorem SetUserPassword_uuid_password_safe :
    ∀ (random v : List Nat) (user host : String),
      (∀ c ∈ (uuidString (newV4 random)).data, isHexOrHyphen c = true) ∧
      quoteCount (uuidString (newV4 random)) = 0 ∧
      ((uuidString (newV4 random)).data.all
        (fun c => !(c == quoteChar) && !(c == backslashChar) && !(c == backtickChar))) = true ∧
      (quoteCount user = 0 → quoteCount host = 0 →
        sqlQuotesValid (setUserPasswordStmt v user host (uuidString (newV4 random))) = true) := by
  intro random v user host
  have hchars := uuidString_chars (newV4 random)
  have hq : quoteCount (uuidString (newV4 random)) = 0 := by
    simp only [quoteCount]
    apply List.countP_eq_zero.mpr
    intro c hc
    simp [(isHexOrHyphen_no_special (hchars c hc)).1]
  refine ⟨hchars, hq, ?_, ?_⟩
  · rw [List.all_eq_true]
    intro c hc
    obtain ⟨h1, h2, h3⟩ := isHexOrHyphen_no_special (hchars c hc)
    simp [h1, h2, h3]
  · intro hu hh
    apply (sqlQuotesValid_iff _).mpr
    rw [stmt_quoteCount, hu, hh, hq]

theorem SetUserPassword_uuid_password_safe_witness :
    sqlQuotesValid (setUserPasswordStmt [8, 0, 21] "app" "%"
      (uuidString (newV4 sampleRandom))) = true ∧
    quoteCount (uuidString (newV4 sampleRandom)) = 0 :=
  ⟨(SetUserPassword_uuid_password_safe sampleRandom [8, 0, 21] "app" "%").2.2.2
      (by decide) (by decide),
   (SetUserPassword_uuid_password_safe sampleRandom [8, 0, 21] "app" "%").2.1⟩
